import Mathlib

set_option linter.unusedVariables false

/-!
A shallow embedding of the legate.core data-view excerpt
(src/core.inl and src/core/mapping/operation.cc), together with
theorems checking the specified behaviour of Store accessor dispatch,
colocation, domain queries, scalar access and the Copy boundary adapter.
-/

namespace legate

/-- A Legion Domain: a rectangular index space; only its dimensionality is
observed by the code in this excerpt. -/
structure Domain where
  dim : Int
deriving DecidableEq, Repr

/-- A Legion DomainAffineTransform; the code only inspects the input
dimensionality transform.transform.m to drive dim_dispatch. -/
structure DomainAffineTransform where
  m : Int
  n : Int
deriving DecidableEq, Repr

/-- Modelled from the spec: TransformStack (core/data/transform.h is not part
of this excerpt). It exposes the forward map on Domains and the inverse map
to a requested dimension, exactly the two operations the excerpt calls. -/
structure TransformStack where
  transform : Domain → Domain
  inverse_transform : Int → DomainAffineTransform

/-- A Legion PhysicalRegion handle, opaque to this excerpt. -/
structure PhysicalRegion where
  id : Nat
deriving DecidableEq, Repr

/-- A bounding sub-rectangle restricting valid accessor coordinates. -/
structure Rect where
  lo : List Int
  hi : List Int
deriving DecidableEq, Repr

/-- Legion memory kinds; the excerpt only uses NO_MEMKIND. -/
inductive MemKind where
  | NO_MEMKIND
deriving DecidableEq, Repr

/-- legate::RegionField (task side): a physical region and a field id. -/
structure RegionField where
  pr_ : PhysicalRegion
  fid_ : Nat
deriving DecidableEq, Repr

/-- legate::FutureWrapper (task side): the asynchronously produced value
(payload, abstracted to its raw bits) and its fixed logical domain. -/
structure FutureWrapper where
  payload : Int
  domain_ : Domain
deriving DecidableEq, Repr

/-- Modelled from the spec: FutureWrapper::get_result blocks until the value
is available and returns it reinterpreted as the requested type; we model the
returned value as the raw payload. -/
def FutureWrapper.get_result (fw : FutureWrapper) : Int := fw.payload

/-- sizeof(uint64_t): the one-machine-word header offset. -/
def sizeofUInt64 : Nat := 8

/-- The read-only accessor, as a record of how it was constructed: each
constructor mirrors one AccessorRO construction site of the excerpt. -/
inductive AccessorRO where
  | ofFuture (fw : FutureWrapper) (memkind : MemKind) (elemSize : Nat)
      (checkReady : Bool) (redFuture : Bool) (fieldSize : Option Nat) (offset : Nat)
  | ofFutureBounds (fw : FutureWrapper) (bounds : Rect) (memkind : MemKind) (elemSize : Nat)
      (checkReady : Bool) (redFuture : Bool) (fieldSize : Option Nat) (offset : Nat)
  | ofRegion (pr : PhysicalRegion) (fid : Nat)
  | ofRegionTransform (dispatchDim : Int) (pr : PhysicalRegion) (fid : Nat)
      (t : DomainAffineTransform)
  | ofRegionBounds (pr : PhysicalRegion) (fid : Nat) (bounds : Rect)
  | ofRegionBoundsTransform (dispatchDim : Int) (pr : PhysicalRegion) (fid : Nat)
      (t : DomainAffineTransform) (bounds : Rect)
deriving DecidableEq, Repr

/-- The write-only accessor; no construction site builds one from a future. -/
inductive AccessorWO where
  | ofRegion (pr : PhysicalRegion) (fid : Nat)
  | ofRegionTransform (dispatchDim : Int) (pr : PhysicalRegion) (fid : Nat)
      (t : DomainAffineTransform)
  | ofRegionBounds (pr : PhysicalRegion) (fid : Nat) (bounds : Rect)
  | ofRegionBoundsTransform (dispatchDim : Int) (pr : PhysicalRegion) (fid : Nat)
      (t : DomainAffineTransform) (bounds : Rect)
deriving DecidableEq, Repr

/-- The read-write accessor; no construction site builds one from a future. -/
inductive AccessorRW where
  | ofRegion (pr : PhysicalRegion) (fid : Nat)
  | ofRegionTransform (dispatchDim : Int) (pr : PhysicalRegion) (fid : Nat)
      (t : DomainAffineTransform)
  | ofRegionBounds (pr : PhysicalRegion) (fid : Nat) (bounds : Rect)
  | ofRegionBoundsTransform (dispatchDim : Int) (pr : PhysicalRegion) (fid : Nat)
      (t : DomainAffineTransform) (bounds : Rect)
deriving DecidableEq, Repr

/-- The reduction accessor: carries the exclusivity flag and the
reduction-operator id passed at construction. -/
inductive AccessorRD where
  | ofRegion (exclusive : Bool) (pr : PhysicalRegion) (fid : Nat) (redopId : Int)
  | ofRegionTransform (exclusive : Bool) (dispatchDim : Int) (pr : PhysicalRegion)
      (fid : Nat) (redopId : Int) (t : DomainAffineTransform)
  | ofRegionBounds (exclusive : Bool) (pr : PhysicalRegion) (fid : Nat) (redopId : Int)
      (bounds : Rect)
  | ofRegionBoundsTransform (exclusive : Bool) (dispatchDim : Int) (pr : PhysicalRegion)
      (fid : Nat) (redopId : Int) (t : DomainAffineTransform) (bounds : Rect)
deriving DecidableEq, Repr

/-- The reduction-operator id recorded in a reduction accessor. -/
def AccessorRD.redopOf : AccessorRD → Int
  | .ofRegion _ _ _ r => r
  | .ofRegionTransform _ _ _ _ r _ => r
  | .ofRegionBounds _ _ _ r _ => r
  | .ofRegionBoundsTransform _ _ _ _ r _ _ => r

/-- RegionField::read_accessor<T, DIM>() -/
def RegionField.read_accessor (rf : RegionField) : AccessorRO :=
  .ofRegion rf.pr_ rf.fid_

/-- RegionField::write_accessor<T, DIM>() -/
def RegionField.write_accessor (rf : RegionField) : AccessorWO :=
  .ofRegion rf.pr_ rf.fid_

/-- RegionField::read_write_accessor<T, DIM>() -/
def RegionField.read_write_accessor (rf : RegionField) : AccessorRW :=
  .ofRegion rf.pr_ rf.fid_

/-- RegionField::reduce_accessor<OP, EXCLUSIVE, DIM>(redop_id) -/
def RegionField.reduce_accessor (rf : RegionField) (exclusive : Bool)
    (redop_id : Int) : AccessorRD :=
  .ofRegion exclusive rf.pr_ rf.fid_ redop_id

/-- RegionField::read_accessor<T, DIM>(transform): dispatches on
transform.transform.m. -/
def RegionField.read_accessor_transform (rf : RegionField)
    (t : DomainAffineTransform) : AccessorRO :=
  .ofRegionTransform t.m rf.pr_ rf.fid_ t

/-- RegionField::write_accessor<T, DIM>(transform) -/
def RegionField.write_accessor_transform (rf : RegionField)
    (t : DomainAffineTransform) : AccessorWO :=
  .ofRegionTransform t.m rf.pr_ rf.fid_ t

/-- RegionField::read_write_accessor<T, DIM>(transform) -/
def RegionField.read_write_accessor_transform (rf : RegionField)
    (t : DomainAffineTransform) : AccessorRW :=
  .ofRegionTransform t.m rf.pr_ rf.fid_ t

/-- RegionField::reduce_accessor<OP, EXCLUSIVE, DIM>(redop_id, transform) -/
def RegionField.reduce_accessor_transform (rf : RegionField) (exclusive : Bool)
    (redop_id : Int) (t : DomainAffineTransform) : AccessorRD :=
  .ofRegionTransform exclusive t.m rf.pr_ rf.fid_ redop_id t

/-- RegionField::read_accessor<T, DIM>(bounds) -/
def RegionField.read_accessor_bounds (rf : RegionField) (bounds : Rect) : AccessorRO :=
  .ofRegionBounds rf.pr_ rf.fid_ bounds

/-- RegionField::write_accessor<T, DIM>(bounds) -/
def RegionField.write_accessor_bounds (rf : RegionField) (bounds : Rect) : AccessorWO :=
  .ofRegionBounds rf.pr_ rf.fid_ bounds

/-- RegionField::read_write_accessor<T, DIM>(bounds) -/
def RegionField.read_write_accessor_bounds (rf : RegionField) (bounds : Rect) : AccessorRW :=
  .ofRegionBounds rf.pr_ rf.fid_ bounds

/-- RegionField::reduce_accessor<OP, EXCLUSIVE, DIM>(redop_id, bounds) -/
def RegionField.reduce_accessor_bounds (rf : RegionField) (exclusive : Bool)
    (redop_id : Int) (bounds : Rect) : AccessorRD :=
  .ofRegionBounds exclusive rf.pr_ rf.fid_ redop_id bounds

/-- RegionField::read_accessor<T, DIM>(bounds, transform) -/
def RegionField.read_accessor_bounds_transform (rf : RegionField) (bounds : Rect)
    (t : DomainAffineTransform) : AccessorRO :=
  .ofRegionBoundsTransform t.m rf.pr_ rf.fid_ t bounds

/-- RegionField::write_accessor<T, DIM>(bounds, transform) -/
def RegionField.write_accessor_bounds_transform (rf : RegionField) (bounds : Rect)
    (t : DomainAffineTransform) : AccessorWO :=
  .ofRegionBoundsTransform t.m rf.pr_ rf.fid_ t bounds

/-- RegionField::read_write_accessor<T, DIM>(bounds, transform) -/
def RegionField.read_write_accessor_bounds_transform (rf : RegionField) (bounds : Rect)
    (t : DomainAffineTransform) : AccessorRW :=
  .ofRegionBoundsTransform t.m rf.pr_ rf.fid_ t bounds

/-- RegionField::reduce_accessor<OP, EXCLUSIVE, DIM>(redop_id, bounds, transform) -/
def RegionField.reduce_accessor_bounds_transform (rf : RegionField) (exclusive : Bool)
    (redop_id : Int) (bounds : Rect) (t : DomainAffineTransform) : AccessorRD :=
  .ofRegionBoundsTransform exclusive t.m rf.pr_ rf.fid_ redop_id t bounds

/-- Element type codes, the shared fixed enumeration. -/
inductive LegateTypeCode where
  | BOOL_LT | INT8_LT | INT16_LT | INT32_LT | INT64_LT
  | UINT8_LT | UINT16_LT | UINT32_LT | UINT64_LT
  | HALF_LT | FLOAT_LT | DOUBLE_LT | MAX_TYPE_NUMBER
deriving DecidableEq, Repr

/-- legate::Store (task side, core.inl): the fields the excerpt reads. -/
structure Store where
  is_future_ : Bool
  dim_ : Int
  code_ : LegateTypeCode
  redop_id_ : Int
  future_ : FutureWrapper
  region_field_ : RegionField
  transform_ : Option TransformStack

/-- Store::read_accessor<T, DIM>() with sizeofT standing for sizeof(T) and
`DIM` for the static dimension; a violated assert yields none. -/
def Store.read_accessor (st : Store) (sizeofT : Nat) (DIM : Int) : Option AccessorRO :=
  if DIM = st.dim_ ∨ st.dim_ = 0 then
    if st.is_future_ then
      some (.ofFuture st.future_ .NO_MEMKIND sizeofT false false none sizeofUInt64)
    else
      match st.transform_ with
      | some ts => some (st.region_field_.read_accessor_transform (ts.inverse_transform st.dim_))
      | none => some st.region_field_.read_accessor
  else none

/-- Store::write_accessor<T, DIM>() -/
def Store.write_accessor (st : Store) (sizeofT : Nat) (DIM : Int) : Option AccessorWO :=
  if DIM = st.dim_ ∨ st.dim_ = 0 then
    if st.is_future_ then none
    else
      match st.transform_ with
      | some ts => some (st.region_field_.write_accessor_transform (ts.inverse_transform st.dim_))
      | none => some st.region_field_.write_accessor
  else none

/-- Store::read_write_accessor<T, DIM>() -/
def Store.read_write_accessor (st : Store) (sizeofT : Nat) (DIM : Int) : Option AccessorRW :=
  if DIM = st.dim_ ∨ st.dim_ = 0 then
    if st.is_future_ then none
    else
      match st.transform_ with
      | some ts =>
          some (st.region_field_.read_write_accessor_transform (ts.inverse_transform st.dim_))
      | none => some st.region_field_.read_write_accessor
  else none

/-- Store::reduce_accessor<OP, EXCLUSIVE, DIM>() with opRedopId standing for
the static OP::REDOP_ID. -/
def Store.reduce_accessor (st : Store) (opRedopId : Int) (exclusive : Bool)
    (DIM : Int) : Option AccessorRD :=
  if DIM = st.dim_ then
    if st.is_future_ then none
    else if opRedopId = st.redop_id_ then
      match st.transform_ with
      | some ts =>
          some (st.region_field_.reduce_accessor_transform exclusive st.redop_id_
            (ts.inverse_transform DIM))
      | none => some (st.region_field_.reduce_accessor exclusive st.redop_id_)
    else none
  else none

/-- Store::read_accessor<T, DIM>(bounds) -/
def Store.read_accessor_bounds (st : Store) (sizeofT : Nat) (bounds : Rect)
    (DIM : Int) : Option AccessorRO :=
  if DIM = st.dim_ then
    if st.is_future_ then
      some (.ofFutureBounds st.future_ bounds .NO_MEMKIND sizeofT false false none sizeofUInt64)
    else
      match st.transform_ with
      | some ts =>
          some (st.region_field_.read_accessor_bounds_transform bounds
            (ts.inverse_transform DIM))
      | none => some (st.region_field_.read_accessor_bounds bounds)
  else none

/-- Store::write_accessor<T, DIM>(bounds) -/
def Store.write_accessor_bounds (st : Store) (sizeofT : Nat) (bounds : Rect)
    (DIM : Int) : Option AccessorWO :=
  if st.is_future_ then none
  else if DIM = st.dim_ then
    match st.transform_ with
    | some ts =>
        some (st.region_field_.write_accessor_bounds_transform bounds
          (ts.inverse_transform DIM))
    | none => some (st.region_field_.write_accessor_bounds bounds)
  else none

/-- Store::read_write_accessor<T, DIM>(bounds) -/
def Store.read_write_accessor_bounds (st : Store) (sizeofT : Nat) (bounds : Rect)
    (DIM : Int) : Option AccessorRW :=
  if st.is_future_ then none
  else if DIM = st.dim_ then
    match st.transform_ with
    | some ts =>
        some (st.region_field_.read_write_accessor_bounds_transform bounds
          (ts.inverse_transform DIM))
    | none => some (st.region_field_.read_write_accessor_bounds bounds)
  else none

/-- Store::reduce_accessor<OP, EXCLUSIVE, DIM>(bounds): note there is no check
of OP::REDOP_ID against the recorded id in this variant. -/
def Store.reduce_accessor_bounds (st : Store) (opRedopId : Int) (exclusive : Bool)
    (bounds : Rect) (DIM : Int) : Option AccessorRD :=
  if st.is_future_ then none
  else if DIM = st.dim_ then
    match st.transform_ with
    | some ts =>
        some (st.region_field_.reduce_accessor_bounds_transform exclusive st.redop_id_
          bounds (ts.inverse_transform DIM))
    | none => some (st.region_field_.reduce_accessor_bounds exclusive st.redop_id_ bounds)
  else none

/-- Store::scalar<VAL>(): asserts is_future_, then blocks on the future and
returns its result. -/
def Store.scalar (st : Store) : Option Int :=
  if st.is_future_ then some st.future_.get_result else none

namespace mapping

/-- A Legion LogicalRegion: the attributes the mapping excerpt queries. -/
structure LogicalRegion where
  tree_id : Nat
  index_space : Nat
  dim : Int
deriving DecidableEq, Repr

/-- A Legion RegionRequirement: the region and its instance fields. -/
structure RegionRequirement where
  region : LogicalRegion
  instance_fields : List Nat
deriving DecidableEq, Repr

/-- The Legion MapperContext, opaque to this excerpt. -/
def MapperContext : Type := Unit

/-- The Legion MapperRuntime capability, reduced to the one query the
excerpt performs: the index-space domain of a region. -/
structure MapperRuntime where
  get_index_space_domain : MapperContext → Nat → Domain

/-- legate::mapping::RegionField: requirement, dimensionality, requirement
index and field id. -/
structure RegionField where
  req_ : RegionRequirement
  dim_ : Int
  idx_ : Nat
  fid_ : Nat
deriving DecidableEq, Repr

/-- RegionField::get_requirement -/
def RegionField.get_requirement (rf : RegionField) : RegionRequirement := rf.req_

/-- RegionField::can_colocate_with: same region tree id. -/
def RegionField.can_colocate_with (rf other : RegionField) : Bool :=
  rf.get_requirement.region.tree_id == other.get_requirement.region.tree_id

/-- RegionField::get_index_space -/
def RegionField.get_index_space (rf : RegionField) : Nat := rf.req_.region.index_space

/-- RegionField::domain(runtime, context): runtime index-space domain query. -/
def RegionField.domain (rf : RegionField) (runtime : MapperRuntime)
    (context : MapperContext) : Domain :=
  runtime.get_index_space_domain context rf.get_index_space

/-- legate::mapping::FutureWrapper: argument index and fixed domain. -/
structure FutureWrapper where
  idx_ : Nat
  domain_ : Domain
deriving DecidableEq, Repr

/-- FutureWrapper::domain -/
def FutureWrapper.domain (fw : FutureWrapper) : Domain := fw.domain_

/-- legate::mapping::Store: tagged view over a future- or region-backed
argument, with the mapper runtime capability retained for domain queries. -/
structure Store where
  is_future_ : Bool
  is_output_store_ : Bool
  dim_ : Int
  code_ : LegateTypeCode
  redop_id_ : Int
  future_ : FutureWrapper
  region_field_ : RegionField
  transform_ : Option TransformStack
  runtime_ : MapperRuntime
  context_ : MapperContext

/-- A default-constructed mapping::FutureWrapper, used for the members a
constructor leaves unset. -/
def FutureWrapper.null : FutureWrapper := ⟨0, ⟨0⟩⟩

/-- A default-constructed mapping::RegionField, used for the members a
constructor leaves unset. -/
def RegionField.null : RegionField := ⟨⟨⟨0, 0, 0⟩, []⟩, -1, 0, 0⟩

/-- A trivial MapperRuntime, used for the members a constructor leaves
unset. -/
def MapperRuntime.null : MapperRuntime := ⟨fun _ _ => ⟨0⟩⟩

/-- Store::Store(dim, code, future, transform): future-backed constructor;
records is_future_ = true, is_output_store_ = false and redop_id_ = -1. -/
def Store.fromFuture (dim : Int) (code : LegateTypeCode) (future : FutureWrapper)
    (transform : Option TransformStack) : Store :=
  { is_future_ := true
    is_output_store_ := false
    dim_ := dim
    code_ := code
    redop_id_ := -1
    future_ := future
    region_field_ := RegionField.null
    transform_ := transform
    runtime_ := MapperRuntime.null
    context_ := () }

/-- Store::Store(runtime, context, dim, code, redop_id, region_field,
is_output_store, transform): region-backed constructor with an explicit
reduction-operator id. -/
def Store.fromRegionField (runtime : MapperRuntime) (context : MapperContext)
    (dim : Int) (code : LegateTypeCode) (redop_id : Int) (region_field : RegionField)
    (is_output_store : Bool) (transform : Option TransformStack) : Store :=
  { is_future_ := false
    is_output_store_ := is_output_store
    dim_ := dim
    code_ := code
    redop_id_ := redop_id
    future_ := FutureWrapper.null
    region_field_ := region_field
    transform_ := transform
    runtime_ := runtime
    context_ := context }

/-- Store::Store(runtime, context, requirement): from-requirement
constructor; records redop_id_ = -1 and builds the RegionField from the
requirement with index 0 and its first instance field. -/
def Store.fromRequirement (runtime : MapperRuntime) (context : MapperContext)
    (requirement : RegionRequirement) : Store :=
  { is_future_ := false
    is_output_store_ := false
    dim_ := requirement.region.dim
    code_ := LegateTypeCode.MAX_TYPE_NUMBER
    redop_id_ := -1
    future_ := FutureWrapper.null
    region_field_ := ⟨requirement, requirement.region.dim, 0,
      requirement.instance_fields.headD 0⟩
    transform_ := none
    runtime_ := runtime
    context_ := context }

/-- Modelled from the spec: Store::is_future accessor (operation.h is not
part of this excerpt). -/
def Store.is_future (st : Store) : Bool := st.is_future_

/-- Modelled from the spec: Store::unbound accessor — the is_output_store
flag is true exactly when the store's shape is not yet known. -/
def Store.unbound (st : Store) : Bool := st.is_output_store_

/-- Modelled from the spec: Store::is_reduction accessor — the
reduction-operator id is set (not the none value -1) iff the store denotes a
reduction target. -/
def Store.is_reduction (st : Store) : Bool := st.redop_id_ != -1

/-- Modelled from the spec: Store::redop accessor, the recorded
reduction-operator id. -/
def Store.redop (st : Store) : Int := st.redop_id_

/-- Store::can_colocate_with -/
def Store.can_colocate_with (st other : Store) : Bool :=
  if st.is_future || other.is_future then false
  else if st.unbound || other.unbound then false
  else if st.is_reduction || other.is_reduction then
    st.redop == other.redop && st.region_field_.can_colocate_with other.region_field_
  else st.region_field_.can_colocate_with other.region_field_

/-- Store::domain: asserts the store is bound, queries the backing for its
domain, applies the forward transform when present, and asserts the result's
dimension equals the recorded dimensionality; a violated assert yields
none. -/
def Store.domain (st : Store) : Option Domain :=
  if st.unbound then none
  else
    let base := if st.is_future_ then st.future_.domain
      else st.region_field_.domain st.runtime_ st.context_
    let result := match st.transform_ with
      | some t => t.transform base
      | none => base
    if result.dim = st.dim_ then some result else none

/-- Modelled from the spec: the CopyDeserializer over the copy's mapper data
(deserializer.h is not part of this excerpt). It yields successive Store
lists from the buffer and keeps a cursor over the four requirement groups. -/
structure CopyDeserializer where
  packs : List (List Store)
  req_index : Nat

/-- Modelled from the spec: unpack<std::vector<Store>> yields the next Store
list from the buffer. -/
def CopyDeserializer.unpack_stores : CopyDeserializer → List Store × CopyDeserializer
  | ⟨[], k⟩ => ([], ⟨[], k⟩)
  | ⟨g :: gs, k⟩ => (g, ⟨gs, k⟩)

/-- Modelled from the spec: next_requirement_list advances the cursor to the
next requirement group. -/
def CopyDeserializer.next_requirement_list (d : CopyDeserializer) : CopyDeserializer :=
  { d with req_index := d.req_index + 1 }

/-- legate::mapping::Copy: the four deserialized Store lists. -/
structure Copy where
  inputs_ : List Store
  outputs_ : List Store
  input_indirections_ : List Store
  output_indirections_ : List Store

/-- Copy::Copy: unpacks sources, destinations, source-indirections and
destination-indirections in that order, advancing the requirement cursor
between consecutive lists; returns the Copy and the final deserializer
state. -/
def Copy.construct (dez : CopyDeserializer) : Copy × CopyDeserializer :=
  let p1 := dez.unpack_stores
  let d1 := p1.2.next_requirement_list
  let p2 := d1.unpack_stores
  let d2 := p2.2.next_requirement_list
  let p3 := d2.unpack_stores
  let d3 := p3.2.next_requirement_list
  let p4 := d3.unpack_stores
  (⟨p1.1, p2.1, p3.1, p4.1⟩, p4.2)

/-- The DEBUG_LEGATE check at the end of Copy::Copy: every store of every
one of the four lists must not be future-backed. -/
def Copy.debug_no_future_check (c : Copy) : Bool :=
  c.inputs_.all (fun s => !s.is_future) &&
  c.outputs_.all (fun s => !s.is_future) &&
  c.input_indirections_.all (fun s => !s.is_future) &&
  c.output_indirections_.all (fun s => !s.is_future)

/-- A sample mapper runtime whose domain query always answers a 2-dimensional
domain. -/
def mrt : MapperRuntime := ⟨fun _ _ => ⟨2⟩⟩

/-- Sample requirement A: region in tree 7, index space 3, dimension 2. -/
def mreqA : RegionRequirement := ⟨⟨7, 3, 2⟩, [4]⟩

/-- Sample requirement B: region in the same tree 7, different index space. -/
def mreqB : RegionRequirement := ⟨⟨7, 9, 2⟩, [5]⟩

/-- Sample region field over requirement A. -/
def mrfA : RegionField := ⟨mreqA, 2, 0, 4⟩

/-- Sample region field over requirement B (same region tree as A). -/
def mrfB : RegionField := ⟨mreqB, 2, 1, 5⟩

/-- A sample region-backed reduction store (operator id 5) over field A. -/
def mStoreRed : Store := Store.fromRegionField mrt () 2 .INT32_LT 5 mrfA false none

/-- A sample plain region-backed store over field A. -/
def mStorePlainA : Store := Store.fromRegionField mrt () 2 .INT32_LT (-1) mrfA false none

/-- A sample plain region-backed store over field B. -/
def mStorePlainB : Store := Store.fromRegionField mrt () 2 .INT32_LT (-1) mrfB false none

end mapping

/-- A sample bounding rectangle. -/
def rect1 : Rect := ⟨[0], [3]⟩

/-- A sample future-backed task-side store of dimension 1 holding 42. -/
def stFut : Store :=
  { is_future_ := true, dim_ := 1, code_ := .INT64_LT, redop_id_ := -1,
    future_ := ⟨42, ⟨1⟩⟩, region_field_ := ⟨⟨0⟩, 10⟩, transform_ := none }

/-- A sample region-backed task-side store of dimension 2. -/
def stReg : Store :=
  { is_future_ := false, dim_ := 2, code_ := .INT32_LT, redop_id_ := -1,
    future_ := ⟨0, ⟨0⟩⟩, region_field_ := ⟨⟨1⟩, 11⟩, transform_ := none }

/-- A sample region-backed reduction task-side store (operator id 5) of
dimension 1. -/
def stRed : Store :=
  { is_future_ := false, dim_ := 1, code_ := .INT32_LT, redop_id_ := 5,
    future_ := ⟨0, ⟨0⟩⟩, region_field_ := ⟨⟨2⟩, 12⟩, transform_ := none }

/-- C1 counterexample: two bound, non-future region-backed stores over the
same region tree, exactly one of which is a reduction target. The claim says
colocation then returns exactly the RegionFields' colocation result (true
here), but Store::can_colocate_with enters the reduction branch whenever
either side is a reduction target and returns false because the operator ids
(5 and -1) differ. -/
theorem c1_colocate_counterexample :
    mapping.Store.is_future mapping.mStoreRed = false ∧
    mapping.Store.is_future mapping.mStorePlainB = false ∧
    mapping.Store.unbound mapping.mStoreRed = false ∧
    mapping.Store.unbound mapping.mStorePlainB = false ∧
    mapping.Store.is_reduction mapping.mStoreRed = true ∧
    mapping.Store.is_reduction mapping.mStorePlainB = false ∧
    mapping.RegionField.can_colocate_with mapping.mStoreRed.region_field_
      mapping.mStorePlainB.region_field_ = true ∧
    mapping.Store.can_colocate_with mapping.mStoreRed mapping.mStorePlainB = false := by
  refine ⟨rfl, rfl, rfl, rfl, ?_, ?_, rfl, ?_⟩ <;> decide

/-- C1 (amended): Store::can_colocate_with returns false when either store is
a future or unbound; when EITHER store is a reduction target it requires the
two reduction-operator ids to match and the backing RegionFields to colocate;
only when neither is a reduction target does it return exactly the backing
RegionFields' colocation result. -/
theorem c1_colocate_characterization (a b : mapping.Store) :
    ((a.is_future = true ∨ b.is_future = true) → a.can_colocate_with b = false) ∧
    ((a.unbound = true ∨ b.unbound = true) → a.can_colocate_with b = false) ∧
    (a.is_future = false → b.is_future = false → a.unbound = false → b.unbound = false →
      (((a.is_reduction = true ∨ b.is_reduction = true) →
        a.can_colocate_with b =
          (a.redop == b.redop && a.region_field_.can_colocate_with b.region_field_)) ∧
      (a.is_reduction = false → b.is_reduction = false →
        a.can_colocate_with b = a.region_field_.can_colocate_with b.region_field_))) := by
  unfold mapping.Store.can_colocate_with
  refine ⟨?_, ?_, ?_⟩
  · rintro (h | h) <;> simp [h]
  · rintro (h | h) <;> simp [h]
  · intro hfa hfb hua hub
    refine ⟨?_, ?_⟩
    · rintro (h | h) <;> simp [hfa, hfb, hua, hub, h]
    · intro hra hrb; simp [hfa, hfb, hua, hub, hra, hrb]

/-- C1 witness: at the concrete reduction/plain pair, colocation equals the
conjunction of the id test and the RegionField test. -/
theorem c1_colocate_characterization_witness :
    mapping.Store.can_colocate_with mapping.mStoreRed mapping.mStorePlainB =
      (mapping.Store.redop mapping.mStoreRed == mapping.Store.redop mapping.mStorePlainB &&
        mapping.RegionField.can_colocate_with mapping.mStoreRed.region_field_
          mapping.mStorePlainB.region_field_) :=
  ((c1_colocate_characterization mapping.mStoreRed mapping.mStorePlainB).2.2
    rfl rfl rfl rfl).1 (Or.inl (by decide))

/-- C3: can_colocate_with is symmetric for bound, non-future, non-reduction
region-backed stores sharing a region tree, and returns false whenever either
argument is a future or unbound. -/
theorem c3_colocate_symm (a b : mapping.Store)
    (hfa : a.is_future = false) (hfb : b.is_future = false)
    (hua : a.unbound = false) (hub : b.unbound = false)
    (hra : a.is_reduction = false) (hrb : b.is_reduction = false)
    (ht : a.region_field_.req_.region.tree_id = b.region_field_.req_.region.tree_id) :
    a.can_colocate_with b = b.can_colocate_with a ∧
    (∀ c d : mapping.Store, (c.is_future = true ∨ c.unbound = true) →
      c.can_colocate_with d = false ∧ d.can_colocate_with c = false) := by
  constructor
  · unfold mapping.Store.can_colocate_with
    simp [hfa, hfb, hua, hub, hra, hrb, mapping.RegionField.can_colocate_with,
      mapping.RegionField.get_requirement, ht]
  · intro c d h
    unfold mapping.Store.can_colocate_with
    rcases h with h | h <;> constructor <;> simp [h]

/-- C3 witness: symmetry at two concrete plain stores in the same tree, and
falseness at a concrete future store. -/
theorem c3_colocate_symm_witness :
    mapping.Store.can_colocate_with mapping.mStorePlainA mapping.mStorePlainB =
      mapping.Store.can_colocate_with mapping.mStorePlainB mapping.mStorePlainA :=
  (c3_colocate_symm mapping.mStorePlainA mapping.mStorePlainB
    rfl rfl rfl rfl (by decide) (by decide) rfl).1

/-- C6: Store::scalar asserts the store is future-backed — on a region-backed
store the contract check fails — and on a future-backed store returns the
future's result (the blocking wait and reinterpretation being modelled by
FutureWrapper.get_result). -/
theorem c6_scalar_future_only (st : Store) :
    (st.is_future_ = false → st.scalar = none) ∧
    (st.is_future_ = true → st.scalar = some st.future_.get_result) := by
  unfold Store.scalar
  constructor <;> intro h <;> simp [h]

/-- C6 witness: the concrete future-backed store yields its payload 42. -/
theorem c6_scalar_future_only_witness :
    stFut.scalar = some 42 ∧ stReg.scalar = none :=
  ⟨((c6_scalar_future_only stFut).2 rfl).trans rfl, (c6_scalar_future_only stReg).1 rfl⟩

/-- C7: constructing a Copy unpacks exactly four Store lists — sources,
destinations, source-indirections, destination-indirections, in that order —
advancing the requirement cursor between consecutive lists (three advances),
and the debug check passes exactly when no store of the four lists is
future-backed. -/
theorem c7_copy_deserialization (g1 g2 g3 g4 : List mapping.Store)
    (rest : List (List mapping.Store)) (k : Nat) :
    (mapping.Copy.construct ⟨g1 :: g2 :: g3 :: g4 :: rest, k⟩).1.inputs_ = g1 ∧
    (mapping.Copy.construct ⟨g1 :: g2 :: g3 :: g4 :: rest, k⟩).1.outputs_ = g2 ∧
    (mapping.Copy.construct ⟨g1 :: g2 :: g3 :: g4 :: rest, k⟩).1.input_indirections_ = g3 ∧
    (mapping.Copy.construct ⟨g1 :: g2 :: g3 :: g4 :: rest, k⟩).1.output_indirections_ = g4 ∧
    (mapping.Copy.construct ⟨g1 :: g2 :: g3 :: g4 :: rest, k⟩).2.req_index = k + 3 ∧
    (mapping.Copy.construct ⟨g1 :: g2 :: g3 :: g4 :: rest, k⟩).1.debug_no_future_check =
      (g1 ++ g2 ++ g3 ++ g4).all (fun s => !s.is_future) := by
  refine ⟨rfl, rfl, rfl, rfl, rfl, ?_⟩
  simp [mapping.Copy.construct, mapping.CopyDeserializer.unpack_stores,
    mapping.CopyDeserializer.next_requirement_list, mapping.Copy.debug_no_future_check,
    List.all_append, Bool.and_assoc]

/-- C8: the future-backed and from-requirement constructors always record
reduction-operator id -1 (so the stores they build are not reduction
targets), and only the region-backed constructor taking an explicit redop_id
records it; the recorded id is set (differs from -1) iff the store is a
reduction target. -/
theorem c8_redop_invariant (dim : Int) (code : LegateTypeCode)
    (fw : mapping.FutureWrapper) (ts1 ts2 : Option TransformStack)
    (rt : mapping.MapperRuntime) (ctx : mapping.MapperContext)
    (redop_id : Int) (rf : mapping.RegionField) (out : Bool)
    (req : mapping.RegionRequirement) :
    (mapping.Store.fromFuture dim code fw ts1).redop_id_ = -1 ∧
    (mapping.Store.fromFuture dim code fw ts1).is_reduction = false ∧
    (mapping.Store.fromRequirement rt ctx req).redop_id_ = -1 ∧
    (mapping.Store.fromRequirement rt ctx req).is_reduction = false ∧
    (mapping.Store.fromRegionField rt ctx dim code redop_id rf out ts2).redop_id_ =
      redop_id ∧
    ((mapping.Store.fromRegionField rt ctx dim code redop_id rf out ts2).is_reduction =
      true ↔ redop_id ≠ -1) := by
  refine ⟨rfl, rfl, rfl, rfl, rfl, ?_⟩
  simp [mapping.Store.is_reduction, mapping.Store.fromRegionField]

/-- C5: Store::domain fails the contract when the store is unbound; otherwise
it returns the FutureWrapper's fixed domain (future-backed) or the runtime
index-space domain of the RegionField's region (region-backed), with the
forward transform applied exactly when a transform stack is present, and any
returned domain has dimension equal to the recorded dimensionality. -/
theorem c5_domain_query (st : mapping.Store) :
    (st.unbound = true → st.domain = none) ∧
    (st.unbound = false → st.is_future_ = true → st.transform_ = none →
      st.future_.domain.dim = st.dim_ → st.domain = some st.future_.domain) ∧
    (st.unbound = false → st.is_future_ = false → st.transform_ = none →
      (st.region_field_.domain st.runtime_ st.context_).dim = st.dim_ →
      st.domain = some (st.region_field_.domain st.runtime_ st.context_)) ∧
    (∀ t, st.unbound = false → st.is_future_ = true → st.transform_ = some t →
      (t.transform st.future_.domain).dim = st.dim_ →
      st.domain = some (t.transform st.future_.domain)) ∧
    (∀ t, st.unbound = false → st.is_future_ = false → st.transform_ = some t →
      (t.transform (st.region_field_.domain st.runtime_ st.context_)).dim = st.dim_ →
      st.domain = some (t.transform (st.region_field_.domain st.runtime_ st.context_))) ∧
    (∀ d, st.domain = some d → d.dim = st.dim_) := by
  unfold mapping.Store.domain
  refine ⟨?_, ?_, ?_, ?_, ?_, ?_⟩
  · intro h; simp [h]
  · intro hu hf htr hd; simp [hu, hf, htr, hd]
  · intro hu hf htr hd; simp [hu, hf, htr, hd]
  · intro t hu hf htr hd; simp [hu, hf, htr, hd]
  · intro t hu hf htr hd; simp [hu, hf, htr, hd]
  · intro d h
    by_cases hu : st.unbound = true
    · simp [hu] at h
    · simp [eq_false_of_ne_true hu] at h
      rcases h with ⟨hdim, hval⟩
      exact hval ▸ hdim

/-- C5 witness: the concrete bound region-backed store answers the runtime's
2-dimensional domain. -/
theorem c5_domain_query_witness :
    mapping.Store.domain mapping.mStorePlainA = some ⟨2⟩ :=
  ((c5_domain_query mapping.mStorePlainA).2.2.1 rfl rfl rfl rfl).trans rfl

/-- C2 counterexample: a future-backed store of matching dimensionality. The
read-only accessor is indeed built from the FutureWrapper, but the
write-only, read-write and reduction accessor constructions (bounded or not)
never build from the FutureWrapper: they assert the store is not
future-backed and the contract check fails, refuting the claimed uniformity
of the future branch across the four access modes. -/
theorem c2_future_branch_counterexample :
    stFut.is_future_ = true ∧
    stFut.read_accessor 4 1 =
      some (AccessorRO.ofFuture stFut.future_ MemKind.NO_MEMKIND 4 false false none 8) ∧
    stFut.write_accessor 4 1 = none ∧
    stFut.read_write_accessor 4 1 = none ∧
    stFut.reduce_accessor (-1) true 1 = none ∧
    stFut.write_accessor_bounds 4 rect1 1 = none ∧
    stFut.read_write_accessor_bounds 4 rect1 1 = none ∧
    stFut.reduce_accessor_bounds (-1) true rect1 1 = none := by
  refine ⟨rfl, ?_, ?_, ?_, ?_, rfl, rfl, rfl⟩ <;> rfl

/-- C2 (amended): for each access mode the branch on the transform stack is
uniform — inverted stack passed to the RegionField accessor when present,
direct RegionField construction otherwise — but the future branch exists only
for the read-only accessors (bounded or not); the write-only, read-write and
reduction constructors fail the contract on a future-backed store. -/
theorem c2_accessor_branches (st : Store) (sizeofT : Nat) (opRedopId : Int)
    (exclusive : Bool) (bounds : Rect) (DIM : Int)
    (hd : DIM = st.dim_) (hop : opRedopId = st.redop_id_) :
    (st.is_future_ = true →
      st.read_accessor sizeofT DIM =
        some (.ofFuture st.future_ .NO_MEMKIND sizeofT false false none sizeofUInt64) ∧
      st.read_accessor_bounds sizeofT bounds DIM =
        some (.ofFutureBounds st.future_ bounds .NO_MEMKIND sizeofT false false none
          sizeofUInt64) ∧
      st.write_accessor sizeofT DIM = none ∧
      st.read_write_accessor sizeofT DIM = none ∧
      st.reduce_accessor opRedopId exclusive DIM = none ∧
      st.write_accessor_bounds sizeofT bounds DIM = none ∧
      st.read_write_accessor_bounds sizeofT bounds DIM = none ∧
      st.reduce_accessor_bounds opRedopId exclusive bounds DIM = none) ∧
    (st.is_future_ = false → ∀ ts, st.transform_ = some ts →
      st.read_accessor sizeofT DIM =
        some (st.region_field_.read_accessor_transform (ts.inverse_transform st.dim_)) ∧
      st.write_accessor sizeofT DIM =
        some (st.region_field_.write_accessor_transform (ts.inverse_transform st.dim_)) ∧
      st.read_write_accessor sizeofT DIM =
        some (st.region_field_.read_write_accessor_transform
          (ts.inverse_transform st.dim_)) ∧
      st.reduce_accessor opRedopId exclusive DIM =
        some (st.region_field_.reduce_accessor_transform exclusive st.redop_id_
          (ts.inverse_transform DIM)) ∧
      st.read_accessor_bounds sizeofT bounds DIM =
        some (st.region_field_.read_accessor_bounds_transform bounds
          (ts.inverse_transform DIM)) ∧
      st.write_accessor_bounds sizeofT bounds DIM =
        some (st.region_field_.write_accessor_bounds_transform bounds
          (ts.inverse_transform DIM)) ∧
      st.read_write_accessor_bounds sizeofT bounds DIM =
        some (st.region_field_.read_write_accessor_bounds_transform bounds
          (ts.inverse_transform DIM)) ∧
      st.reduce_accessor_bounds opRedopId exclusive bounds DIM =
        some (st.region_field_.reduce_accessor_bounds_transform exclusive st.redop_id_
          bounds (ts.inverse_transform DIM))) ∧
    (st.is_future_ = false → st.transform_ = none →
      st.read_accessor sizeofT DIM = some st.region_field_.read_accessor ∧
      st.write_accessor sizeofT DIM = some st.region_field_.write_accessor ∧
      st.read_write_accessor sizeofT DIM = some st.region_field_.read_write_accessor ∧
      st.reduce_accessor opRedopId exclusive DIM =
        some (st.region_field_.reduce_accessor exclusive st.redop_id_) ∧
      st.read_accessor_bounds sizeofT bounds DIM =
        some (st.region_field_.read_accessor_bounds bounds) ∧
      st.write_accessor_bounds sizeofT bounds DIM =
        some (st.region_field_.write_accessor_bounds bounds) ∧
      st.read_write_accessor_bounds sizeofT bounds DIM =
        some (st.region_field_.read_write_accessor_bounds bounds) ∧
      st.reduce_accessor_bounds opRedopId exclusive bounds DIM =
        some (st.region_field_.reduce_accessor_bounds exclusive st.redop_id_ bounds)) := by
  subst hd; subst hop
  unfold Store.read_accessor Store.write_accessor Store.read_write_accessor
    Store.reduce_accessor Store.read_accessor_bounds Store.write_accessor_bounds
    Store.read_write_accessor_bounds Store.reduce_accessor_bounds
  refine ⟨?_, ?_, ?_⟩
  · intro hf; simp [hf]
  · intro hf ts hts; simp [hf, hts]
  · intro hf hts; simp [hf, hts]

/-- C2 witness: at the concrete future-backed store the read accessor comes
from the future while the write accessor fails the contract. -/
theorem c2_accessor_branches_witness :
    stFut.read_accessor 4 1 =
      some (AccessorRO.ofFuture stFut.future_ MemKind.NO_MEMKIND 4 false false none 8) ∧
    stFut.write_accessor 4 1 = none := by
  have h := (c2_accessor_branches stFut 4 (-1) true rect1 1 rfl rfl).1 rfl
  exact ⟨h.1, h.2.2.1⟩

/-- C4 counterexample: a region-backed reduction store with recorded operator
id 5. Requesting the unbounded reduction accessor with OP::REDOP_ID = 7 trips
the contract check, but the bounded variant performs no such check: it
succeeds and silently builds from the RegionField with the recorded id 5. -/
theorem c4_bounded_reduce_counterexample :
    stRed.redop_id_ = 5 ∧
    stRed.reduce_accessor 7 true 1 = none ∧
    stRed.reduce_accessor_bounds 7 true rect1 1 =
      some (stRed.region_field_.reduce_accessor_bounds true 5 rect1) := by
  refine ⟨rfl, ?_, ?_⟩ <;> rfl

/-- C4 (amended): only the unbounded reduction accessor asserts that the
requested OP::REDOP_ID equals the Store's recorded operator id (failing the
contract on mismatch); the bounded variant performs no identifier check.
Both variants build from the RegionField with the Store's recorded id. -/
theorem c4_reduce_redop_check (st : Store) (opRedopId : Int) (exclusive : Bool)
    (bounds : Rect) (DIM : Int) (hf : st.is_future_ = false) (hd : DIM = st.dim_) :
    (opRedopId ≠ st.redop_id_ → st.reduce_accessor opRedopId exclusive DIM = none) ∧
    (opRedopId = st.redop_id_ →
      (st.reduce_accessor opRedopId exclusive DIM).isSome = true) ∧
    ((st.reduce_accessor_bounds opRedopId exclusive bounds DIM).isSome = true) ∧
    (∀ acc, st.reduce_accessor opRedopId exclusive DIM = some acc →
      acc.redopOf = st.redop_id_) ∧
    (∀ acc, st.reduce_accessor_bounds opRedopId exclusive bounds DIM = some acc →
      acc.redopOf = st.redop_id_) := by
  subst hd
  unfold Store.reduce_accessor Store.reduce_accessor_bounds
  refine ⟨?_, ?_, ?_, ?_, ?_⟩
  · intro h; simp [hf, h]
  · intro h; cases hts : st.transform_ <;> simp [hf, h, hts]
  · cases hts : st.transform_ <;> simp [hf, hts]
  · intro acc hacc
    by_cases h : opRedopId = st.redop_id_
    · cases hts : st.transform_ <;>
        simp [hf, h, hts, RegionField.reduce_accessor,
          RegionField.reduce_accessor_transform] at hacc <;>
        simp [← hacc, AccessorRD.redopOf]
    · simp [hf, h] at hacc
  · intro acc hacc
    cases hts : st.transform_ <;>
      simp [hf, hts, RegionField.reduce_accessor_bounds,
        RegionField.reduce_accessor_bounds_transform] at hacc <;>
      simp [← hacc, AccessorRD.redopOf]

/-- C4 witness: at the concrete reduction store, the unbounded request with
mismatched id 7 fails while the bounded request succeeds. -/
theorem c4_reduce_redop_check_witness :
    stRed.reduce_accessor 7 true 1 = none ∧
    (stRed.reduce_accessor_bounds 7 true rect1 1).isSome = true := by
  have h := c4_reduce_redop_check stRed 7 true rect1 1 rfl rfl
  exact ⟨h.1 (by decide), h.2.2.1⟩

/-- C9: for a future-backed store, both read-accessor variants are built from
the FutureWrapper with element size sizeof(T) and a fixed trailing offset of
sizeof(uint64_t) = 8, the one-machine-word runtime-prepended header skipped
when computing the address of the first logical element. -/
theorem c9_future_read_header_offset (st : Store) (sizeofT : Nat) (bounds : Rect)
    (DIM : Int) (hf : st.is_future_ = true) (hd : DIM = st.dim_) :
    st.read_accessor sizeofT DIM =
      some (.ofFuture st.future_ .NO_MEMKIND sizeofT false false none sizeofUInt64) ∧
    st.read_accessor_bounds sizeofT bounds DIM =
      some (.ofFutureBounds st.future_ bounds .NO_MEMKIND sizeofT false false none
        sizeofUInt64) ∧
    sizeofUInt64 = 8 := by
  subst hd
  unfold Store.read_accessor Store.read_accessor_bounds
  refine ⟨?_, ?_, rfl⟩ <;> simp [hf]

/-- C9 witness: the concrete future store's bounded read accessor records
element size 4 and header offset 8. -/
theorem c9_future_read_header_offset_witness :
    stFut.read_accessor_bounds 4 rect1 1 =
      some (AccessorRO.ofFutureBounds stFut.future_ rect1 MemKind.NO_MEMKIND 4
        false false none 8) :=
  (c9_future_read_header_offset stFut 4 rect1 1 rfl rfl).2.1

/-- C10: for region-backed stores, the unbounded read-only, write-only and
read-write constructors accept recorded dimensionality 0 besides an exact
match of the requested static dimension, whereas both reduction variants and
every bounded variant demand an exact match. -/
theorem c10_dimension_checks (st : Store) (sizeofT : Nat) (opRedopId : Int)
    (exclusive : Bool) (bounds : Rect) (DIM : Int)
    (hf : st.is_future_ = false) (hop : opRedopId = st.redop_id_) :
    ((st.read_accessor sizeofT DIM).isSome = true ↔ (DIM = st.dim_ ∨ st.dim_ = 0)) ∧
    ((st.write_accessor sizeofT DIM).isSome = true ↔ (DIM = st.dim_ ∨ st.dim_ = 0)) ∧
    ((st.read_write_accessor sizeofT DIM).isSome = true ↔
      (DIM = st.dim_ ∨ st.dim_ = 0)) ∧
    ((st.reduce_accessor opRedopId exclusive DIM).isSome = true ↔ DIM = st.dim_) ∧
    ((st.read_accessor_bounds sizeofT bounds DIM).isSome = true ↔ DIM = st.dim_) ∧
    ((st.write_accessor_bounds sizeofT bounds DIM).isSome = true ↔ DIM = st.dim_) ∧
    ((st.read_write_accessor_bounds sizeofT bounds DIM).isSome = true ↔
      DIM = st.dim_) ∧
    ((st.reduce_accessor_bounds opRedopId exclusive bounds DIM).isSome = true ↔
      DIM = st.dim_) := by
  subst hop
  unfold Store.read_accessor Store.write_accessor Store.read_write_accessor
    Store.reduce_accessor Store.read_accessor_bounds Store.write_accessor_bounds
    Store.read_write_accessor_bounds Store.reduce_accessor_bounds
  cases hts : st.transform_ <;>
    by_cases hd : DIM = st.dim_ <;> by_cases h0 : st.dim_ = 0 <;>
      simp [hf, hts, hd, h0]

/-- C10 witness: at the concrete 2-dimensional region store, the unbounded
read accessor at static dimension 2 exists while the bounded one at static
dimension 1 would not; instantiated here for the reduction variant. -/
theorem c10_dimension_checks_witness :
    ((stReg.reduce_accessor (-1) true 2).isSome = true ↔ (2 : Int) = stReg.dim_) ∧
    ((stReg.read_accessor 4 2).isSome = true ↔
      ((2 : Int) = stReg.dim_ ∨ stReg.dim_ = 0)) := by
  have h := c10_dimension_checks stReg 4 (-1) true rect1 2 rfl rfl
  exact ⟨h.2.2.2.1, h.1⟩

end legate
